import Mathlib

/-!
Verification of the godot-cli command dispatcher (src/main.rs) via a shallow
embedding.  The filesystem, the interactive confirmation channel and the
terminal are external collaborators; they are modelled respectively by a
record of oracles (`FS`), a list of pre-recorded yes/no answers, and a trace
of `Effect`s that the dispatcher emits in program order.  Colour codes are
presentation-only and are stripped from the embedded message strings.
-/

namespace GodotCli

/-- The two-field configuration record (struct Config in main.rs). -/
structure Config where
  godot_exec : String
  project_dir : String
deriving DecidableEq

/-- Config::default(): both fields empty (derive(Default) on String). -/
def defaultConfig : Config := ⟨"", ""⟩

/-- Oracle view of the filesystem collaborator: Path::exists, Path::is_file,
Path::is_dir, and fs::read_dir (list of entry file names under a directory). -/
structure FS where
  pathExists : String → Bool
  isFile : String → Bool
  isDir : String → Bool
  readDir : String → List String

/-- Observable effects of one invocation, in program order.  Filesystem
mutations, process spawns, config persistence, and the user-facing message
channels (stdout/stderr println, warn, err, prompt). -/
inductive Effect where
  | spawn (exe : String) (args : List String)
  | createDir (p : String)
  | writeFileAll (p : String) (content : String)
  | removeDirAll (p : String)
  | storeConfig (c : Config)
  | errMsg (s : String)
  | warnMsg (s : String)
  | printMsg (s : String)
  | promptMsg (s : String)
  | setColorOverride (b : Bool)
  | missingConfigNotice (settings : List String)
  | showConfigLocation
  | configHelpText
  | actionHelpText
deriving DecidableEq

/-- Result of one invocation: the effect trace, the final in-memory config,
and whether the process panicked (out-of-bounds index on args). -/
structure MainOut where
  effects : List Effect
  config : Config
  panicked : Bool
deriving DecidableEq

/-- usize::cmp in Rust: three-way comparison on Nat. -/
def natCmp (a b : Nat) : Ordering :=
  if a < b then Ordering.lt else if a = b then Ordering.eq else Ordering.gt

/-- fn args_count(num, amnt, ord): true iff amnt.cmp(num) == ord, otherwise
emits the arity diagnostic. -/
def args_count (num : Nat) (amnt : Nat) (ord : Ordering) : Bool × List Effect :=
  let result := natCmp amnt num
  if result = ord then (true, [])
  else
    let ordStr := match ord with
      | Ordering.lt => "less than"
      | Ordering.eq => "exactly"
      | Ordering.gt => "more than"
    (false, [Effect.errMsg ("expected " ++ ordStr ++ " " ++ toString num ++ " " ++
      (if num = 1 then "arg" else "args") ++ ", got " ++ toString amnt)])

/-- fn is_valid_name: accepts iff the name is pure ASCII (str::is_ascii). -/
def is_valid_name (name : String) : Bool × List Effect :=
  if name.data.all (fun c => c.toNat < 128) then (true, [])
  else (false, [Effect.errMsg "non-ascii project name"])

/-- fn prompt: shows the message, reads an answer; on a non-yes answer emits
the cancel message (all call sites use the default "canceled").  The
dispatcher asks at most one question per invocation, so the head of the
recorded answer list is the reply; an absent reply reads as a non-yes line. -/
def promptRun (msg : String) (answers : List Bool) : Bool × List Effect :=
  if answers.headD false then (true, [Effect.promptMsg msg])
  else (false, [Effect.promptMsg msg, Effect.errMsg "canceled"])

/-- str::starts_with("--"): the token begins with two dashes. -/
def startsWithDashDash (s : String) : Bool :=
  match s.data with
  | '-' :: '-' :: _ => true
  | _ => false

/-- One step of the args.retain closure: keep the token unless it is a
recognized colour flag (side effect: set the override) or an unknown
"--"-prefixed token (side effect: warning). -/
def processFlag (arg : String) : Bool × List Effect :=
  if arg = "--no-color" then (false, [Effect.setColorOverride false])
  else if arg = "--force-color" then (false, [Effect.setColorOverride true])
  else if startsWithDashDash arg then (false, [Effect.warnMsg ("unknown arg " ++ arg)])
  else (true, [])

/-- args.retain(..): drops flag tokens, collecting their side effects in
order. -/
def stripFlags : List String → List String × List Effect
  | [] => ([], [])
  | a :: rest =>
    let pf := processFlag a
    let r := stripFlags rest
    (if pf.1 then a :: r.1 else r.1, pf.2 ++ r.2)

/-- Error cases of str::parse::<u8>() that this program can hit. -/
inductive ParseIntError where
  | empty
  | invalidDigit
  | posOverflow
deriving DecidableEq

/-- Display strings of std::num::ParseIntError. -/
def parseErrorText : ParseIntError → String
  | ParseIntError.empty => "cannot parse integer from empty string"
  | ParseIntError.invalidDigit => "invalid digit found in string"
  | ParseIntError.posOverflow => "number too large to fit in target type"

/-- str::parse::<u8>(): optional leading plus sign, then decimal digits,
value at most 255. -/
def parseU8 (s : String) : Except ParseIntError Nat :=
  match s.data with
  | [] => Except.error ParseIntError.empty
  | c :: cs =>
    let digits := if c = '+' then cs else c :: cs
    if digits.isEmpty then Except.error ParseIntError.invalidDigit
    else if digits.all Char.isDigit then
      let n := digits.foldl (fun a ch => a * 10 + (ch.toNat - 48)) 0
      if n ≤ 255 then Except.ok n else Except.error ParseIntError.posOverflow
    else Except.error ParseIntError.invalidDigit

/-- fn open_godot: spawns the literal executable name "godot" with the given
arguments (note: not the configured godot_exec path). -/
def open_godot (args : List String) : List Effect :=
  [Effect.spawn "godot" args]

/-- The "new"/"create" verb body. -/
def newVerb (fs : FS) (cfg : Config) (args : List String) (argLen : Nat)
    (answers : List Bool) : MainOut :=
  let ac := args_count 2 argLen Ordering.eq
  if !ac.1 then ⟨ac.2, cfg, false⟩
  else if cfg.godot_exec = "" ∨ cfg.project_dir = "" then
    ⟨[Effect.missingConfigNotice ["godot_exec", "project_dir"]], cfg, false⟩
  else
    match args.get? 1 with
    | none => ⟨[], cfg, true⟩
    | some name =>
      let vn := is_valid_name name
      if !vn.1 then ⟨vn.2, cfg, false⟩
      else
        let project_dir := cfg.project_dir ++ "/" ++ name
        let pr := promptRun ("confirm creation of project \"" ++ project_dir ++ "\"?") answers
        if !pr.1 then ⟨pr.2, cfg, false⟩
        else if fs.pathExists project_dir then
          ⟨pr.2 ++ [Effect.printMsg ("error: project \"" ++ name ++ "\" already exists")],
            cfg, false⟩
        else
          ⟨pr.2 ++ [Effect.createDir project_dir,
            Effect.writeFileAll (project_dir ++ "/project.godot")
              ("[application]\n\nconfig/name=\"" ++ name ++ "\"")] ++
            open_godot ["-e", "--path", project_dir], cfg, false⟩

/-- The "open" verb body. -/
def openVerb (fs : FS) (cfg : Config) (args : List String) (argLen : Nat)
    (_answers : List Bool) : MainOut :=
  let ac := args_count 2 argLen Ordering.eq
  if !ac.1 then ⟨ac.2, cfg, false⟩
  else if cfg.godot_exec = "" ∨ cfg.project_dir = "" then
    ⟨[Effect.missingConfigNotice ["godot_exec", "project_dir"]], cfg, false⟩
  else
    match args.get? 1 with
    | none => ⟨[], cfg, true⟩
    | some name =>
      let vn := is_valid_name name
      if !vn.1 then ⟨vn.2, cfg, false⟩
      else
        let project_dir := cfg.project_dir ++ "/" ++ name
        if !fs.pathExists project_dir || fs.isFile project_dir then
          ⟨[Effect.errMsg "invalid path or no permission"], cfg, false⟩
        else
          ⟨[Effect.printMsg ("opening project " ++ project_dir ++ "...")] ++
            open_godot ["-e", "--path", project_dir], cfg, false⟩

/-- Tail of the "run" verb after the instance count has been determined:
path validity check, optional bulk confirmation, then the launch loop. -/
def runVerbGo (fs : FS) (cfg : Config) (name instancesString : String)
    (instances : Nat) (warnEffs : List Effect) (answers : List Bool) : MainOut :=
  let project_dir := cfg.project_dir ++ "/" ++ name
  if !fs.pathExists project_dir || fs.isFile project_dir then
    ⟨warnEffs ++ [Effect.errMsg "invalid path or no permission"], cfg, false⟩
  else
    let pr := if instances > 4 then
        promptRun ("run " ++ instancesString ++ " instances of the project?") answers
      else (true, [])
    if !pr.1 then ⟨warnEffs ++ pr.2, cfg, false⟩
    else
      ⟨warnEffs ++ pr.2 ++
        [Effect.printMsg ("running project " ++ project_dir ++ " with " ++
          toString instances ++ " instances...")] ++
        (List.replicate instances (open_godot ["--path", project_dir])).flatten,
        cfg, false⟩

/-- The "run" verb body. -/
def runVerb (fs : FS) (cfg : Config) (args : List String) (argLen : Nat)
    (answers : List Bool) : MainOut :=
  let ac1 := args_count 1 argLen Ordering.gt
  if !ac1.1 then ⟨ac1.2, cfg, false⟩
  else
    let ac2 := args_count 4 argLen Ordering.lt
    if !ac2.1 then ⟨ac2.2, cfg, false⟩
    else if cfg.godot_exec = "" ∨ cfg.project_dir = "" then
      ⟨[Effect.missingConfigNotice ["godot_exec", "project_dir"]], cfg, false⟩
    else
      match args.get? 1 with
      | none => ⟨[], cfg, true⟩
      | some name =>
        let vn := is_valid_name name
        if !vn.1 then ⟨vn.2, cfg, false⟩
        else if argLen > 2 then
          match args.get? 2 with
          | none => ⟨[], cfg, true⟩
          | some s =>
            match parseU8 s with
            | Except.ok v => runVerbGo fs cfg name s v [] answers
            | Except.error e =>
              runVerbGo fs cfg name s 1
                [Effect.warnMsg ("invalid instance count (0-255): " ++
                  parseErrorText e ++ ". defaulting to 1")] answers
        else runVerbGo fs cfg name "1" 1 [] answers

/-- The enumeration performed by the "list" verb: for each entry under the
root, skip plain files, then print the entry name (Debug-quoted, as println!
with {:?} does) iff it contains the project.godot marker file. -/
def listDirEffects (fs : FS) (root : String) : List Effect :=
  (fs.readDir root).flatMap (fun n =>
    let path := root ++ "/" ++ n
    if fs.isFile path then []
    else if fs.isFile (path ++ "/project.godot") then
      [Effect.printMsg ("\"" ++ n ++ "\"")]
    else [])

/-- The "list" verb body: only project_dir is required. -/
def listVerb (fs : FS) (cfg : Config) (_args : List String) (argLen : Nat)
    (_answers : List Bool) : MainOut :=
  let ac := args_count 1 argLen Ordering.eq
  if !ac.1 then ⟨ac.2, cfg, false⟩
  else if cfg.project_dir = "" then
    ⟨[Effect.missingConfigNotice ["project_dir"]], cfg, false⟩
  else ⟨listDirEffects fs cfg.project_dir, cfg, false⟩

/-- The "delete"/"remove" verb body. -/
def deleteVerb (fs : FS) (cfg : Config) (args : List String) (argLen : Nat)
    (answers : List Bool) : MainOut :=
  let ac := args_count 2 argLen Ordering.eq
  if !ac.1 then ⟨ac.2, cfg, false⟩
  else if cfg.godot_exec = "" ∨ cfg.project_dir = "" then
    ⟨[Effect.missingConfigNotice ["godot_exec", "project_dir"]], cfg, false⟩
  else
    match args.get? 1 with
    | none => ⟨[], cfg, true⟩
    | some name =>
      let vn := is_valid_name name
      if !vn.1 then ⟨vn.2, cfg, false⟩
      else
        let project_dir := cfg.project_dir ++ "/" ++ name
        if !fs.pathExists project_dir then
          ⟨[Effect.errMsg ("project \"" ++ project_dir ++ "\" not found")], cfg, false⟩
        else
          let pr := promptRun ("confirm deletion of \"" ++ project_dir ++ "\"?") answers
          if !pr.1 then ⟨pr.2, cfg, false⟩
          else ⟨pr.2 ++ [Effect.removeDirAll project_dir], cfg, false⟩

/-- The "config" verb body.  Note that confy::store runs after every
sub-action that completes its match arm, including the non-mutating "get",
an unknown entry, and a declined "clear"; only an arity failure, a failed
"set" validation, an unknown sub-action, or a panic skips it. -/
def configVerb (fs : FS) (cfg : Config) (args : List String) (argLen : Nat)
    (answers : List Bool) : MainOut :=
  if argLen = 1 then ⟨[Effect.showConfigLocation, Effect.configHelpText], cfg, false⟩
  else
    let ac := args_count 1 argLen Ordering.gt
    if !ac.1 then ⟨ac.2, cfg, false⟩
    else
      match args.get? 1 with
      | none => ⟨[], cfg, true⟩
      | some sub =>
        if sub = "get" then
          let ac3 := args_count 3 argLen Ordering.eq
          if !ac3.1 then ⟨ac3.2, cfg, false⟩
          else
            match args.get? 2 with
            | none => ⟨[], cfg, true⟩
            | some entry =>
              let e :=
                if entry = "godot_exec" then [Effect.printMsg cfg.godot_exec]
                else if entry = "project_dir" then [Effect.printMsg cfg.project_dir]
                else [Effect.errMsg ("unknown config entry " ++ entry)]
              ⟨e ++ [Effect.storeConfig cfg], cfg, false⟩
        else if sub = "set" then
          let ac4 := args_count 4 argLen Ordering.eq
          if !ac4.1 then ⟨ac4.2, cfg, false⟩
          else
            match args.get? 2, args.get? 3 with
            | some entry, some value =>
              if entry = "godot_exec" then
                if !fs.pathExists value || fs.isDir value then
                  ⟨[Effect.errMsg "invalid path or no permission"], cfg, false⟩
                else
                  let cfg2 : Config := ⟨value, cfg.project_dir⟩
                  ⟨[Effect.storeConfig cfg2], cfg2, false⟩
              else if entry = "project_dir" then
                if !fs.pathExists value && fs.isFile value then
                  ⟨[Effect.errMsg "invalid path or no permission"], cfg, false⟩
                else
                  let cfg2 : Config := ⟨cfg.godot_exec, value⟩
                  ⟨[Effect.storeConfig cfg2], cfg2, false⟩
              else
                ⟨[Effect.errMsg ("unknown config entry " ++ entry),
                  Effect.storeConfig cfg], cfg, false⟩
            | _, _ => ⟨[], cfg, true⟩
        else if sub = "delete" ∨ sub = "remove" then
          let ac3 := args_count 3 argLen Ordering.eq
          if !ac3.1 then ⟨ac3.2, cfg, false⟩
          else
            match args.get? 2 with
            | none => ⟨[], cfg, true⟩
            | some entry =>
              if entry = "godot_exec" then
                let cfg2 : Config := ⟨"", cfg.project_dir⟩
                ⟨[Effect.storeConfig cfg2], cfg2, false⟩
              else if entry = "project_dir" then
                let cfg2 : Config := ⟨cfg.godot_exec, ""⟩
                ⟨[Effect.storeConfig cfg2], cfg2, false⟩
              else
                ⟨[Effect.errMsg ("unknown config entry " ++ entry),
                  Effect.storeConfig cfg], cfg, false⟩
        else if sub = "clear" then
          let pr := promptRun "confirm deletion of config?" answers
          let cfg2 := if pr.1 then defaultConfig else cfg
          ⟨pr.2 ++ [Effect.storeConfig cfg2], cfg2, false⟩
        else ⟨[Effect.errMsg ("invalid action " ++ sub)], cfg, false⟩

/-- Verb dispatch on the first retained token (the match on action). -/
def dispatch (fs : FS) (cfg : Config) (args : List String) (argLen : Nat)
    (answers : List Bool) : MainOut :=
  match args.head? with
  | none => ⟨[], cfg, true⟩
  | some action =>
    if action = "help" ∨ action = "/?" then ⟨[Effect.actionHelpText], cfg, false⟩
    else if action = "new" ∨ action = "create" then newVerb fs cfg args argLen answers
    else if action = "open" then openVerb fs cfg args argLen answers
    else if action = "run" then runVerb fs cfg args argLen answers
    else if action = "list" then listVerb fs cfg args argLen answers
    else if action = "delete" ∨ action = "remove" then deleteVerb fs cfg args argLen answers
    else if action = "config" then configVerb fs cfg args argLen answers
    else ⟨[Effect.errMsg ("invalid action " ++ action)], cfg, false⟩

/-- fn main after a successful config load: default to "help" on an empty
command line, record arg_len BEFORE flags are stripped (as the source does),
strip flags, then dispatch. -/
def runMain (fs : FS) (cfg : Config) (rawArgs : List String) (answers : List Bool) : MainOut :=
  let args0 := if rawArgs.isEmpty then ["help"] else rawArgs
  let argLen := args0.length
  let sf := stripFlags args0
  let out := dispatch fs cfg sf.1 argLen answers
  ⟨sf.2 ++ out.effects, out.config, out.panicked⟩

/-- Effects that mutate the filesystem, spawn a process, or persist config. -/
def isMutEffect : Effect → Bool
  | Effect.spawn _ _ => true
  | Effect.createDir _ => true
  | Effect.writeFileAll _ _ => true
  | Effect.removeDirAll _ => true
  | Effect.storeConfig _ => true
  | _ => false

/-- Is this effect a config persistence? -/
def isStore : Effect → Bool
  | Effect.storeConfig _ => true
  | _ => false

/-- Number of config persistence effects in a trace. -/
def countStores (l : List Effect) : Nat := l.countP isStore

/-- Is this effect a process spawn? -/
def isSpawn : Effect → Bool
  | Effect.spawn _ _ => true
  | _ => false

/-- The subtrace of process spawns. -/
def spawnsOf (l : List Effect) : List Effect := l.filter isSpawn

/-- POSIX path-resolution semantics of the filesystem collaborator: a path
spelled with a trailing slash resolves iff its base resolves to a directory,
and never resolves to a regular file.  Used as an explicit hypothesis where a
claim relies on this OS-level fact. -/
def posixSlashOk (fs : FS) : Prop :=
  ∀ p, fs.isDir p = true → fs.pathExists (p ++ "/") = true ∧ fs.isFile (p ++ "/") = false

/-- A filesystem oracle is self-consistent when a path that resolves to a
regular file in particular resolves. -/
def fsWf (fs : FS) : Prop := ∀ p, fs.isFile p = true → fs.pathExists p = true

/-- Fixture: the empty filesystem. -/
def fs0 : FS := ⟨fun _ => false, fun _ => false, fun _ => false, fun _ => []⟩

/-- Fixture: a filesystem containing the projects root /p and one complete
project /p/demo (directory plus project.godot marker file). -/
def fsDemo : FS :=
  ⟨fun p => p = "/p" || p = "/p/demo" || p = "/p/demo/project.godot",
   fun p => p = "/p/demo/project.godot",
   fun p => p = "/p" || p = "/p/demo",
   fun p => if p = "/p" then ["demo"] else []⟩

/-- A token that does not begin with two dashes is kept by the retain pass
with no side effect. -/
lemma processFlag_keep (s : String) (h : startsWithDashDash s = false) :
    processFlag s = (true, []) := by
  have h1 : s ≠ "--no-color" := by rintro rfl; exact absurd h (by decide)
  have h2 : s ≠ "--force-color" := by rintro rfl; exact absurd h (by decide)
  simp [processFlag, h1, h2, h]

/-- Claim C9: list requires only project_dir: when it is set (godot_exec may
be empty) the enumeration over the projects root proceeds; when it is empty
the diagnostic names only project_dir and no enumeration happens. -/
theorem list_requires_only_project_dir (fs : FS) (cfg : Config) (ans : List Bool) :
    runMain fs cfg ["list"] ans =
      if cfg.project_dir = "" then
        ⟨[Effect.missingConfigNotice ["project_dir"]], cfg, false⟩
      else ⟨listDirEffects fs cfg.project_dir, cfg, false⟩ := by
  by_cases h : cfg.project_dir = "" <;>
    simp [runMain, stripFlags, processFlag_keep "list" (by decide), dispatch, listVerb,
      args_count, natCmp, h]

/-- Claim C2 (amended): a project-addressing verb invoked with at least one
configuration field empty stops before any effect, and the diagnostic names
both fields, regardless of which one is missing. -/
theorem missing_config_blocks (fs : FS) (cfg : Config) (v name : String) (ans : List Bool)
    (hv : v = "new" ∨ v = "create" ∨ v = "open" ∨ v = "run" ∨ v = "delete" ∨ v = "remove")
    (hname : startsWithDashDash name = false)
    (hmiss : cfg.godot_exec = "" ∨ cfg.project_dir = "") :
    runMain fs cfg [v, name] ans =
      ⟨[Effect.missingConfigNotice ["godot_exec", "project_dir"]], cfg, false⟩ := by
  have hkeep := processFlag_keep name hname
  rcases hv with rfl | rfl | rfl | rfl | rfl | rfl <;> rcases hmiss with h | h <;>
    simp [runMain, stripFlags, hkeep, processFlag_keep "new" (by decide),
      processFlag_keep "create" (by decide), processFlag_keep "open" (by decide),
      processFlag_keep "run" (by decide), processFlag_keep "delete" (by decide),
      processFlag_keep "remove" (by decide), dispatch,
      newVerb, openVerb, runVerb, deleteVerb, args_count, natCmp, h]

/-- Flattening n copies of a singleton launch trace yields n launch effects. -/
lemma flatten_replicate_singleton {α : Type} (n : Nat) (a : α) :
    (List.replicate n [a]).flatten = List.replicate n a := by
  induction n with
  | zero => rfl
  | succ k ih => simp [List.replicate_succ, ih]

/-- Claim C7: new on an already-existing target directory (confirmation
accepted) reports the AlreadyExists diagnostic and performs no further
mutation: no directory creation, no marker write, no editor launch, config
untouched. -/
theorem new_already_exists_no_mutation (fs : FS) (cfg : Config) (name : String)
    (hg : cfg.godot_exec ≠ "") (hp : cfg.project_dir ≠ "")
    (hname : startsWithDashDash name = false)
    (hvn : is_valid_name name = (true, []))
    (hex : fs.pathExists (cfg.project_dir ++ "/" ++ name) = true) :
    runMain fs cfg ["new", name] [true] =
      ⟨[Effect.promptMsg ("confirm creation of project \"" ++ (cfg.project_dir ++ "/" ++ name) ++ "\"?"),
        Effect.printMsg ("error: project \"" ++ name ++ "\" already exists")], cfg, false⟩ := by
  simp [runMain, stripFlags, processFlag_keep "new" (by decide), processFlag_keep name hname,
    dispatch, newVerb, args_count, natCmp, hg, hp, hvn, hex, promptRun]

/-- Claim C7 witness: a second creation of /p/demo on the demo filesystem. -/
theorem new_already_exists_no_mutation_witness :
    runMain fsDemo ⟨"/g", "/p"⟩ ["new", "demo"] [true] =
      ⟨[Effect.promptMsg "confirm creation of project \"/p/demo\"?",
        Effect.printMsg "error: project \"demo\" already exists"], ⟨"/g", "/p"⟩, false⟩ :=
  new_already_exists_no_mutation fsDemo ⟨"/g", "/p"⟩ "demo"
    (by decide) (by decide) (by decide) (by decide) (by decide)

/-- Claim C6: run with a complete config, a valid existing project directory
and a parsed instance count above 4: declining the confirmation yields zero
launches; accepting yields exactly count launches, each with the argument
sequence ["--path", resolved project directory]. -/
theorem run_confirmation_gates_launches (fs : FS) (cfg : Config) (name cs : String) (n : Nat)
    (hg : cfg.godot_exec ≠ "") (hp : cfg.project_dir ≠ "")
    (hname : startsWithDashDash name = false)
    (hvn : is_valid_name name = (true, []))
    (hcs : startsWithDashDash cs = false)
    (hparse : parseU8 cs = Except.ok n) (hn : 4 < n)
    (hex : fs.pathExists (cfg.project_dir ++ "/" ++ name) = true)
    (hnf : fs.isFile (cfg.project_dir ++ "/" ++ name) = false) :
    spawnsOf (runMain fs cfg ["run", name, cs] [false]).effects = [] ∧
    spawnsOf (runMain fs cfg ["run", name, cs] [true]).effects =
      List.replicate n (Effect.spawn "godot" ["--path", cfg.project_dir ++ "/" ++ name]) := by
  constructor <;>
    simp [runMain, stripFlags, processFlag_keep "run" (by decide), processFlag_keep name hname,
      processFlag_keep cs hcs, dispatch, runVerb, runVerbGo, args_count, natCmp, hg, hp, hvn,
      hparse, hn, hex, hnf, promptRun, spawnsOf, open_godot, isSpawn,
      flatten_replicate_singleton, List.filter_append, List.filter_replicate]

/-- Claim C6 witness: run demo 5 on the demo filesystem. -/
theorem run_confirmation_gates_launches_witness :
    spawnsOf (runMain fsDemo ⟨"/g", "/p"⟩ ["run", "demo", "5"] [false]).effects = [] ∧
    spawnsOf (runMain fsDemo ⟨"/g", "/p"⟩ ["run", "demo", "5"] [true]).effects =
      List.replicate 5 (Effect.spawn "godot" ["--path", "/p/demo"]) :=
  run_confirmation_gates_launches fsDemo ⟨"/g", "/p"⟩ "demo" "5" 5
    (by decide) (by decide) (by decide) (by decide) (by decide) rfl (by decide)
    (by decide) (by decide)

/-- Claim C1: the editor launch uses the fixed executable name "godot", not
the configured godot_exec path: with godot_exec set to /opt/godot4, open
still spawns "godot". -/
theorem open_spawns_fixed_executable :
    (runMain fsDemo ⟨"/opt/godot4", "/p"⟩ ["open", "demo"] []).effects =
      [Effect.printMsg "opening project /p/demo...",
       Effect.spawn "godot" ["-e", "--path", "/p/demo"]] ∧
    (⟨"/opt/godot4", "/p"⟩ : Config).godot_exec ≠ "godot" := by decide

/-- Claim C3: the arity comparison uses the argument count taken before flag
stripping: list with the recognized flag --no-color is rejected with an
arity diagnostic (got 2), while the same command without the flag passes the
arity check and enumerates. -/
theorem flag_counts_toward_arity :
    runMain fs0 ⟨"/g", "/p"⟩ ["list", "--no-color"] [] =
      ⟨[Effect.setColorOverride false, Effect.errMsg "expected exactly 1 arg, got 2"],
        ⟨"/g", "/p"⟩, false⟩ ∧
    runMain fs0 ⟨"/g", "/p"⟩ ["list"] [] = ⟨[], ⟨"/g", "/p"⟩, false⟩ := by decide

/-- Claim C2 counterexample: with godot_exec empty but project_dir set to
/p, the diagnostic of new nevertheless names project_dir as missing. -/
theorem missing_config_names_nonmissing_field :
    (runMain fs0 ⟨"", "/p"⟩ ["new", "x"] []).effects =
      [Effect.missingConfigNotice ["godot_exec", "project_dir"]] ∧
    (⟨"", "/p"⟩ : Config).project_dir ≠ "" := by decide

/-- Claim C2 witness: new with both fields empty stops with the two-field
notice. -/
theorem missing_config_blocks_witness :
    runMain fs0 ⟨"", ""⟩ ["new", "x"] [] =
      ⟨[Effect.missingConfigNotice ["godot_exec", "project_dir"]], ⟨"", ""⟩, false⟩ :=
  missing_config_blocks fs0 ⟨"", ""⟩ "new" "x" [] (Or.inl rfl) (by decide) (Or.inl rfl)

/-- Claim C4 counterexample: the non-mutating sub-action config get also
persists the configuration file. -/
theorem config_get_writes_config :
    runMain fs0 ⟨"/g", "/p"⟩ ["config", "get", "godot_exec"] [] =
      ⟨[Effect.printMsg "/g", Effect.storeConfig ⟨"/g", "/p"⟩], ⟨"/g", "/p"⟩, false⟩ := by
  decide

/-- Claim C5 counterexample: config clear with an extra trailing argument is
not rejected: the confirmation prompt is shown, the config is reset and
persisted, and no arity diagnostic is emitted. -/
theorem config_clear_extra_arg_not_rejected :
    runMain fs0 ⟨"/g", "/p"⟩ ["config", "clear", "extra"] [true] =
      ⟨[Effect.promptMsg "confirm deletion of config?", Effect.storeConfig defaultConfig],
        defaultConfig, false⟩ := by decide

/-- Claim C5 (amended): config clear performs no sub-action-specific arity
check; an extra trailing token (not a flag) changes nothing about the
invocation's behaviour. -/
theorem config_clear_ignores_extra_arg (fs : FS) (cfg : Config) (t : String) (ans : List Bool)
    (ht : startsWithDashDash t = false) :
    runMain fs cfg ["config", "clear", t] ans = runMain fs cfg ["config", "clear"] ans := by
  simp [runMain, stripFlags, processFlag_keep "config" (by decide),
    processFlag_keep "clear" (by decide), processFlag_keep t ht,
    dispatch, configVerb, args_count, natCmp]

/-- Claim C5 amended witness: the extra token "extra" is ignored on a
declined clear. -/
theorem config_clear_ignores_extra_arg_witness :
    runMain fs0 ⟨"/g", "/p"⟩ ["config", "clear", "extra"] [false] =
      runMain fs0 ⟨"/g", "/p"⟩ ["config", "clear"] [false] :=
  config_clear_ignores_extra_arg fs0 ⟨"/g", "/p"⟩ "extra" [false] (by decide)

/-- Claim C8: config set project_dir rejects exactly when the value does not
exist AND is a file (so on a self-consistent filesystem every non-existent
value is accepted and stored), while config set godot_exec rejects exactly
when the value does not exist OR is a directory; a rejection leaves the
in-memory configuration unchanged and persists nothing. -/
theorem config_set_validation (fs : FS) (cfg : Config) (v : String) (ans : List Bool)
    (hv : startsWithDashDash v = false) :
    (runMain fs cfg ["config", "set", "project_dir", v] ans =
      if fs.pathExists v = false ∧ fs.isFile v = true then
        ⟨[Effect.errMsg "invalid path or no permission"], cfg, false⟩
      else ⟨[Effect.storeConfig ⟨cfg.godot_exec, v⟩], ⟨cfg.godot_exec, v⟩, false⟩) ∧
    (fsWf fs → fs.pathExists v = false →
      runMain fs cfg ["config", "set", "project_dir", v] ans =
        ⟨[Effect.storeConfig ⟨cfg.godot_exec, v⟩], ⟨cfg.godot_exec, v⟩, false⟩) ∧
    (runMain fs cfg ["config", "set", "godot_exec", v] ans =
      if fs.pathExists v = false ∨ fs.isDir v = true then
        ⟨[Effect.errMsg "invalid path or no permission"], cfg, false⟩
      else ⟨[Effect.storeConfig ⟨v, cfg.project_dir⟩], ⟨v, cfg.project_dir⟩, false⟩) := by
  have hpd : runMain fs cfg ["config", "set", "project_dir", v] ans =
      if fs.pathExists v = false ∧ fs.isFile v = true then
        ⟨[Effect.errMsg "invalid path or no permission"], cfg, false⟩
      else ⟨[Effect.storeConfig ⟨cfg.godot_exec, v⟩], ⟨cfg.godot_exec, v⟩, false⟩ := by
    cases hpe : fs.pathExists v <;> cases hfe : fs.isFile v <;>
      simp [runMain, stripFlags, processFlag_keep "config" (by decide),
        processFlag_keep "set" (by decide), processFlag_keep "project_dir" (by decide),
        processFlag_keep v hv, dispatch, configVerb, args_count, natCmp, hpe, hfe]
  refine ⟨hpd, ?_, ?_⟩
  · intro hwf hne
    have hf : fs.isFile v = false := by
      cases hfv : fs.isFile v
      · rfl
      · exact absurd (hwf v hfv) (by simp [hne])
    rw [hpd]
    simp [hne, hf]
  · cases hpe : fs.pathExists v <;> cases hde : fs.isDir v <;>
      simp [runMain, stripFlags, processFlag_keep "config" (by decide),
        processFlag_keep "set" (by decide), processFlag_keep "godot_exec" (by decide),
        processFlag_keep v hv, dispatch, configVerb, args_count, natCmp, hpe, hde]

/-- Claim C8 witness: on the empty filesystem, setting project_dir to a
non-existent path is accepted and stored while setting godot_exec to the
same path is rejected with the configuration unchanged. -/
theorem config_set_validation_witness :
    runMain fs0 ⟨"", ""⟩ ["config", "set", "project_dir", "/nope"] [] =
      ⟨[Effect.storeConfig ⟨"", "/nope"⟩], ⟨"", "/nope"⟩, false⟩ ∧
    runMain fs0 ⟨"", ""⟩ ["config", "set", "godot_exec", "/nope"] [] =
      ⟨[Effect.errMsg "invalid path or no permission"], ⟨"", ""⟩, false⟩ := by
  have h := config_set_validation fs0 ⟨"", ""⟩ "/nope" [] (by decide)
  exact ⟨h.2.1 (fun _ hp => Bool.noConfusion hp) rfl, h.2.2.trans (by decide)⟩

/-- Fixture: a filesystem containing the directory /p, with the POSIX
trailing-slash spelling /p/ resolving to it. -/
def fsSlash : FS :=
  ⟨fun p => p = "/p" || p = "/p/",
   fun _ => false,
   fun p => p = "/p",
   fun _ => []⟩

/-- Claim C10: the empty string is accepted by the name validator, and open
with an empty name resolves to the projects root plus a trailing slash; when
the root is a directory (so that, by POSIX path resolution, the slashed
spelling resolves and is not a file), the editor is launched in edit mode on
the projects root itself. -/
theorem open_empty_name (fs : FS) (cfg : Config) (ans : List Bool)
    (hg : cfg.godot_exec ≠ "") (hp : cfg.project_dir ≠ "")
    (hdir : fs.isDir cfg.project_dir = true) (hsl : posixSlashOk fs) :
    (is_valid_name "").1 = true ∧
    runMain fs cfg ["open", ""] ans =
      ⟨[Effect.printMsg ("opening project " ++ (cfg.project_dir ++ "/") ++ "..."),
        Effect.spawn "godot" ["-e", "--path", cfg.project_dir ++ "/"]], cfg, false⟩ := by
  obtain ⟨he, hf⟩ := hsl cfg.project_dir hdir
  refine ⟨by decide, ?_⟩
  simp [runMain, stripFlags, processFlag_keep "open" (by decide),
    processFlag_keep "" (by decide), dispatch, openVerb, args_count, natCmp, hg, hp,
    is_valid_name, String.append_empty, he, hf, open_godot]

/-- Claim C10 witness: open with an empty name on a filesystem whose root /p
is a directory launches the editor on /p/. -/
theorem open_empty_name_witness :
    (is_valid_name "").1 = true ∧
    runMain fsSlash ⟨"/g", "/p"⟩ ["open", ""] [] =
      ⟨[Effect.printMsg "opening project /p/...",
        Effect.spawn "godot" ["-e", "--path", "/p/"]], ⟨"/g", "/p"⟩, false⟩ := by
  have h := open_empty_name fsSlash ⟨"/g", "/p"⟩ [] (by decide) (by decide) (by decide)
    (fun p hp => by
      have hp2 : p = "/p" := by simpa [fsSlash] using hp
      subst hp2
      exact ⟨by decide, by decide⟩)
  exact h

/-- countStores distributes over concatenation. -/
lemma countStores_append (a b : List Effect) :
    countStores (a ++ b) = countStores a + countStores b :=
  List.countP_append _ _ _

/-- countStores on an empty trace. -/
lemma countStores_nil : countStores [] = 0 := rfl

/-- countStores on a cons cell. -/
lemma countStores_cons (e : Effect) (l : List Effect) :
    countStores (e :: l) = countStores l + if isStore e then 1 else 0 :=
  List.countP_cons _ _ _

/-- An arity diagnostic never persists the configuration. -/
lemma countStores_args_count (num amnt : Nat) (ord : Ordering) :
    countStores (args_count num amnt ord).2 = 0 := by
  by_cases hc : natCmp amnt num = ord <;>
    simp [args_count, hc, countStores_cons, countStores_nil, isStore]

/-- A name-validation diagnostic never persists the configuration. -/
lemma countStores_is_valid_name (n : String) : countStores (is_valid_name n).2 = 0 := by
  by_cases h : n.data.all (fun c => c.toNat < 128) = true <;>
    simp [is_valid_name, h, countStores_cons, countStores_nil, isStore]

/-- A confirmation prompt never persists the configuration. -/
lemma countStores_promptRun (msg : String) (ans : List Bool) :
    countStores (promptRun msg ans).2 = 0 := by
  unfold promptRun
  split_ifs <;> simp [countStores_cons, countStores_nil, isStore]

/-- Flag processing never persists the configuration. -/
lemma countStores_processFlag (s : String) : countStores (processFlag s).2 = 0 := by
  unfold processFlag
  split_ifs <;> simp [countStores_cons, countStores_nil, isStore]

/-- The whole retain pass never persists the configuration. -/
lemma countStores_stripFlags (l : List String) : countStores (stripFlags l).2 = 0 := by
  induction l with
  | nil => rfl
  | cons a r ih => simp [stripFlags, countStores_append, countStores_processFlag, ih]

/-- An editor launch never persists the configuration. -/
lemma countStores_open_godot (a : List String) : countStores (open_godot a) = 0 := by
  simp [open_godot, countStores_cons, countStores_nil, isStore]

/-- A run of n editor launches never persists the configuration. -/
lemma countStores_replicate_spawn (n : Nat) (e : String) (a : List String) :
    countStores (List.replicate n (Effect.spawn e a)) = 0 := by
  simp [countStores, List.countP_replicate, isStore]

/-- Enumeration output never persists the configuration. -/
lemma countStores_listDirEffects (fs : FS) (root : String) :
    countStores (listDirEffects fs root) = 0 := by
  unfold listDirEffects
  induction fs.readDir root with
  | nil => rfl
  | cons a l ih =>
    simp only [List.flatMap_cons, countStores_append, ih]
    split_ifs <;> simp [countStores_cons, countStores_nil, isStore]

/-- The new verb never persists the configuration. -/
lemma newVerb_stores (fs : FS) (cfg : Config) (args : List String) (argLen : Nat)
    (ans : List Bool) : countStores (newVerb fs cfg args argLen ans).effects = 0 := by
  simp only [newVerb]
  repeat' split
  all_goals simp [countStores_append, countStores_cons, countStores_nil, isStore,
    countStores_args_count, countStores_is_valid_name, countStores_promptRun,
    countStores_open_godot]

/-- The open verb never persists the configuration. -/
lemma openVerb_stores (fs : FS) (cfg : Config) (args : List String) (argLen : Nat)
    (ans : List Bool) : countStores (openVerb fs cfg args argLen ans).effects = 0 := by
  simp only [openVerb]
  repeat' split
  all_goals simp [countStores_append, countStores_cons, countStores_nil, isStore,
    countStores_args_count, countStores_is_valid_name, countStores_open_godot]

/-- The run verb never persists the configuration. -/
lemma runVerbGo_stores (fs : FS) (cfg : Config) (name s : String) (inst : Nat)
    (warnEffs : List Effect) (ans : List Bool) (hw : countStores warnEffs = 0) :
    countStores (runVerbGo fs cfg name s inst warnEffs ans).effects = 0 := by
  simp only [runVerbGo]
  repeat' split
  all_goals simp [countStores_append, countStores_cons, countStores_nil, isStore,
    countStores_promptRun, open_godot, flatten_replicate_singleton,
    countStores_replicate_spawn, hw]

/-- The run verb never persists the configuration. -/
lemma runVerb_stores (fs : FS) (cfg : Config) (args : List String) (argLen : Nat)
    (ans : List Bool) : countStores (runVerb fs cfg args argLen ans).effects = 0 := by
  simp only [runVerb]
  repeat' split
  all_goals first
    | (apply runVerbGo_stores
       simp [countStores_cons, countStores_nil, isStore])
    | simp [countStores_append, countStores_cons, countStores_nil, isStore,
        countStores_args_count, countStores_is_valid_name]

/-- The list verb never persists the configuration. -/
lemma listVerb_stores (fs : FS) (cfg : Config) (args : List String) (argLen : Nat)
    (ans : List Bool) : countStores (listVerb fs cfg args argLen ans).effects = 0 := by
  simp only [listVerb]
  repeat' split
  all_goals simp [countStores_append, countStores_cons, countStores_nil, isStore,
    countStores_args_count, countStores_listDirEffects]

/-- The delete verb never persists the configuration. -/
lemma deleteVerb_stores (fs : FS) (cfg : Config) (args : List String) (argLen : Nat)
    (ans : List Bool) : countStores (deleteVerb fs cfg args argLen ans).effects = 0 := by
  simp only [deleteVerb]
  repeat' split
  all_goals simp [countStores_append, countStores_cons, countStores_nil, isStore,
    countStores_args_count, countStores_is_valid_name, countStores_promptRun]

/-- The config verb persists the configuration at most once. -/
lemma configVerb_stores_le_one (fs : FS) (cfg : Config) (args : List String) (argLen : Nat)
    (ans : List Bool) : countStores (configVerb fs cfg args argLen ans).effects ≤ 1 := by
  simp only [configVerb]
  repeat' split
  all_goals simp [countStores_append, countStores_cons, countStores_nil, isStore,
    countStores_args_count, countStores_promptRun]

/-- Dispatch persists the configuration at most once. -/
lemma dispatch_stores_le_one (fs : FS) (cfg : Config) (args : List String) (argLen : Nat)
    (ans : List Bool) : countStores (dispatch fs cfg args argLen ans).effects ≤ 1 := by
  simp only [dispatch]
  split
  · simp [countStores_nil]
  · split_ifs <;>
      simp [newVerb_stores, openVerb_stores, runVerb_stores, listVerb_stores,
        deleteVerb_stores, configVerb_stores_le_one,
        countStores_cons, countStores_nil, isStore]

/-- Claim C4 (amended): every invocation persists the configuration file at
most once; but the write is not restricted to mutating sub-actions: a
config get that passes its arity check also persists (exactly one write). -/
theorem config_store_at_most_once (fs : FS) (cfg : Config) (rawArgs : List String)
    (ans : List Bool) :
    countStores (runMain fs cfg rawArgs ans).effects ≤ 1 ∧
    countStores (runMain fs cfg ["config", "get", "godot_exec"] ans).effects = 1 := by
  constructor
  · simp only [runMain]
    rw [countStores_append, countStores_stripFlags]
    simpa using dispatch_stores_le_one fs cfg _ _ ans
  · simp [runMain, stripFlags, processFlag_keep "config" (by decide),
      processFlag_keep "get" (by decide), processFlag_keep "godot_exec" (by decide),
      dispatch, configVerb, args_count, natCmp,
      countStores_append, countStores_cons, countStores_nil, isStore]

end GodotCli
